import Mathlib

/-!
Shallow embedding of the update-coordination subsystem of the
`dwd_global_rad` Home Assistant integration
(`custom_components/dwd_global_rad/coordinator.py` and
`custom_components/dwd_global_rad/restapi.py`), together with proofs of the
specified properties of that subsystem.

The Python code is asynchronous but makes a bounded, statically known
sequence of calls to its collaborators (config-entry lookup, the remote
data client, the parent coordinators).  Each method is therefore embedded
as a pure function over an *environment* record that fixes the outcome of
every collaborator call the method can make; an outcome is an
`Except`-value so that a raised exception at any call site is
representable.  The embedding of each method returns both the outcome of
its `try`-block and the trace of client operations actually performed, so
that claims about "how many calls" are statable.
-/

deriving instance DecidableEq for Except

namespace DWDGlobalRad

/-! ## Data model

JSON values returned by `GET /locations/{name}`, restricted to the keys the
coordinator reads.  An element of the `"measurements"` list is an object
with a `"measurement_values"` list; an element of the `"forecasts"` list is
an object with an `"entries"` list (field names as read in `sensor.py`).
-/

structure MeasurementEntry where
  sis : Int
  timestamp : Int
deriving DecidableEq

structure ForecastEntry where
  sis : Int
  timestamp : Int
deriving DecidableEq

structure Measurement where
  measurement_values : List MeasurementEntry
deriving DecidableEq

structure Forecast where
  entries : List ForecastEntry
deriving DecidableEq

/-- The JSON object returned by `get_location_by_name`, restricted to the
two keys `coordinator.py` reads.  `measurements = none` models the key being
absent from the dict; `otherKeys` counts any further keys of the dict so
that Python dict truthiness (`not measurement_data`) is representable. -/
structure LocationPayload where
  measurements : Option (List Measurement)
  forecasts : Option (List Forecast)
  otherKeys : Nat
deriving DecidableEq

/-- Python truthiness of the payload dict: a dict is truthy iff it has at
least one key. -/
def LocationPayload.isTruthy (p : LocationPayload) : Bool :=
  p.measurements.isSome || p.forecasts.isSome || decide (p.otherKeys ≠ 0)

/-- Python truthiness of the `measurement_data` / `forecast_data` local
variables: `None` is falsy, a dict is truthy iff non-empty. -/
def truthyOpt : Option LocationPayload → Bool
  | none => false
  | some p => p.isTruthy

/-- The combined per-location snapshot built at `coordinator.py:281-284`:
a dict with exactly the two keys `"measurements"` and `"forecasts"`,
holding the first element of each dataset list. -/
structure LocationSnapshot where
  measurements : Measurement
  forecasts : Forecast
deriving DecidableEq

/-- A config entry's `data` mapping, restricted to the keys read by
`get_location_data` (`entry.data.get("latitude")` etc. may be absent). -/
structure ConfigEntry where
  latitude : Option ℚ
  longitude : Option ℚ
deriving DecidableEq

/-! ## Collaborator-call outcomes -/

/-- Exceptions that a collaborator call inside `get_location_data`'s
`try`-block can raise, plus the `ValueError` raised at line 223 for a
missing config entry.  All are subclasses of `Exception`, hence caught by
the handler at line 287. -/
inductive ClientError where
  | timeoutErr
  | networkErr
  | protocolErr
  | locationNotFound
  | otherErr
deriving DecidableEq

/-- Client/parent operations performed by `get_location_data`, recorded in
order of execution. -/
inductive ClientOp where
  | measGet
  | measAdd
  | measRefresh
  | fcGet
  | fcAdd
  | fcRefresh
deriving DecidableEq

/-- Environment of one `get_location_data` call: outcome of the
config-entry lookup and of each collaborator call the method can reach, in
the order the code makes them.  `measGet2` is the re-read after the
self-healing registration of the measurement side, and similarly `fcGet2`. -/
structure LocationEnv where
  entry : Option ConfigEntry
  measGet1 : Except ClientError (Option LocationPayload)
  fcGet1 : Except ClientError (Option LocationPayload)
  measAddRes : Except ClientError Unit
  measRefreshRes : Except ClientError Unit
  measGet2 : Except ClientError (Option LocationPayload)
  fcAddRes : Except ClientError Unit
  fcRefreshRes : Except ClientError Unit
  fcGet2 : Except ClientError (Option LocationPayload)
deriving DecidableEq

/-! ## `LocationDataUpdateCoordinator.get_location_data` (lines 217-289) -/

/-- One side of the self-healing block (lines 244-262): if the payload is
`None`, register the location, force a refresh of the root poller, and
re-read once; a payload that is present (even a falsy empty dict) is left
alone.  Returns the (possibly re-read) payload and the operations
performed. -/
def healStep (cur : Option LocationPayload)
    (addRes refreshRes : Except ClientError Unit)
    (reRead : Except ClientError (Option LocationPayload))
    (addTag refreshTag getTag : ClientOp) :
    Except ClientError (Option LocationPayload) × List ClientOp :=
  match cur with
  | some p => (.ok (some p), [])
  | none =>
    match addRes with
    | .error c => (.error c, [addTag])
    | .ok _ =>
      match refreshRes with
      | .error c => (.error c, [addTag, refreshTag])
      | .ok _ =>
        match reRead with
        | .error c => (.error c, [addTag, refreshTag, getTag])
        | .ok p2 => (.ok p2, [addTag, refreshTag, getTag])

/-- Lines 264-285: the post-heal recheck (`if not measurement_data or not
forecast_data: return None`), the two emptiness checks on the
`"measurements"` and `"forecasts"` keys, and the assembly of the snapshot
from the first element of each list. -/
def finalize (md fd : Option LocationPayload) : Option LocationSnapshot :=
  match md, fd with
  | some mp, some fp =>
    if mp.isTruthy && fp.isTruthy then
      match mp.measurements with
      | none => none
      | some [] => none
      | some (m :: _) =>
        match fp.forecasts with
        | none => none
        | some [] => none
        | some (f :: _) => some ⟨m, f⟩
    else none
  | _, _ => none

/-- Value of the `try`-block of `get_location_data` when it completes
without raising: the final values of the `measurement_data` and
`forecast_data` locals at the check stage, and the returned value. -/
structure GLDOut where
  finalMeas : Option LocationPayload
  finalFc : Option LocationPayload
  result : Option LocationSnapshot
deriving DecidableEq

/-- Outcome of one `get_location_data` call: the `try`-block's outcome
(`.error` = an exception reached the `except` handler at line 287) and the
trace of collaborator operations performed. -/
structure GLDResult where
  body : Except ClientError GLDOut
  trace : List ClientOp
deriving DecidableEq

/-- `get_location_data` (lines 217-289), minus the final `except` handler:
resolve the config entry (raising `ValueError` if absent), read both
payloads, run the self-healing block when either side is falsy, then check
and assemble. -/
def runGLD (env : LocationEnv) : GLDResult :=
  match env.entry with
  | none => ⟨.error .locationNotFound, []⟩
  | some _ =>
    match env.measGet1 with
    | .error c => ⟨.error c, [.measGet]⟩
    | .ok md0 =>
      match env.fcGet1 with
      | .error c => ⟨.error c, [.measGet, .fcGet]⟩
      | .ok fd0 =>
        if truthyOpt md0 && truthyOpt fd0 then
          ⟨.ok ⟨md0, fd0, finalize md0 fd0⟩, [.measGet, .fcGet]⟩
        else
          match healStep md0 env.measAddRes env.measRefreshRes env.measGet2
              .measAdd .measRefresh .measGet with
          | (.error c, t1) => ⟨.error c, [.measGet, .fcGet] ++ t1⟩
          | (.ok md1, t1) =>
            match healStep fd0 env.fcAddRes env.fcRefreshRes env.fcGet2
                .fcAdd .fcRefresh .fcGet with
            | (.error c, t2) => ⟨.error c, [.measGet, .fcGet] ++ t1 ++ t2⟩
            | (.ok fd1, t2) =>
              ⟨.ok ⟨md1, fd1, finalize md1 fd1⟩, [.measGet, .fcGet] ++ t1 ++ t2⟩

/-- The caller-visible result of `get_location_data`: the `except Exception`
handler at lines 287-289 converts any raised exception into a logged
`return None`. -/
def getLocationData (env : LocationEnv) : Option LocationSnapshot :=
  match (runGLD env).body with
  | .ok o => o.result
  | .error _ => none

/-- Effect of one `get_location_data` call on the `_location_data`
attribute: it is assigned (the whole snapshot at once, line 281) only on
the success path; every `return None` path leaves it untouched. -/
def locDataAfterGet (old : Option LocationSnapshot) (env : LocationEnv) :
    Option LocationSnapshot :=
  match getLocationData env with
  | some s => some s
  | none => old

/-! ## `LocationDataUpdateCoordinator._handle_update` (lines 295-312) and
listener registration (lines 213-215) -/

/-- The two parent pollers. -/
inductive Parent
  | forecast
  | measurement
deriving DecidableEq

/-- `__init__` lines 214-215: the location coordinator registers the same
update handler with the forecast parent and with the measurement parent. -/
def subscribedParents : List Parent := [.forecast, .measurement]

/-- `last_update_success` of each parent poller, as visible to
`_handle_update`. -/
structure ParentFlags where
  measurementOk : Bool
  forecastOk : Bool
deriving DecidableEq

/-- Outcome of one `_handle_update` run: the new value of `_location_data`
and the value passed to `async_set_updated_data` (what subscribers see). -/
structure HandleOut where
  locationData : Option LocationSnapshot
  published : Option LocationSnapshot
deriving DecidableEq

/-- `_handle_update` (lines 295-312): if the measurement parent's
`last_update_success` is false, clear `_location_data` and publish `None`;
otherwise re-run `get_location_data` and publish its result, clearing to
`None` when it returned falsy.  The forecast parent's flag is never read. -/
def handleUpdate (flags : ParentFlags) (env : LocationEnv) : HandleOut :=
  if !flags.measurementOk then ⟨none, none⟩
  else
    match getLocationData env with
    | some s => ⟨some s, some s⟩
    | none => ⟨none, none⟩

/-- Values the `_location_data` attribute can hold: it starts as `None`
(`__init__` line 211) and is only changed by `get_location_data` calls
(made directly by entities or via `_async_update_data`) and by
`_handle_update` runs. -/
inductive LDReach : Option LocationSnapshot → Prop where
  | start : LDReach none
  | getData (old : Option LocationSnapshot) (env : LocationEnv) :
      LDReach old → LDReach (locDataAfterGet old env)
  | handler (flags : ParentFlags) (env : LocationEnv) (old : Option LocationSnapshot) :
      LDReach old → LDReach (handleUpdate flags env).locationData

/-! ## Forecast / Measurement poller fetch cycles
(`ForecastUpdateCoordinator._async_update_data`, lines 87-111, and
`MeasurementUpdateCoordinator._async_update_data`, lines 145-173) -/

/-- Exceptions caught by the poller `except` clauses: `TimeoutError` (from
`asyncio.timeout(30)`), `ServerDisconnectedError`, `ClientConnectorError`,
`OSError`, and the final catch-all `Exception`.  Every exception a cycle
can raise lands in exactly one clause. -/
inductive FetchError where
  | timeoutErr
  | serverDisconnected
  | clientConnector
  | osErr
  | otherExc
deriving DecidableEq

/-- The collection published by a poller: the client's full locations
list (`await self.api_client.locations`), not filtered per-location. -/
abbrev Locations := List LocationPayload

/-- Environment of one poller fetch cycle: outcome of the batch fetch call
(`fetch_forecasts()` / `fetch_measurements(1)`) and of the subsequent read
of `api_client.locations`. -/
structure PollerEnv where
  fetchRes : Except FetchError Unit
  locationsRes : Except FetchError Locations
deriving DecidableEq

/-- Outcome of one poller cycle: the last value published through
`async_set_updated_data` (`prev` is the previously published value, kept
when the cycle publishes nothing) and the method's return value. -/
structure PollerOut where
  lastData : Option Locations
  returned : Option Locations
deriving DecidableEq

/-- `ForecastUpdateCoordinator._async_update_data` (lines 87-111): fetch
forecasts, read the locations cache, publish and return it; every
exception is caught, logged, and turned into `return None`, publishing
nothing. -/
def forecastCycle (prev : Option Locations) (env : PollerEnv) : PollerOut :=
  match env.fetchRes with
  | .error _ => ⟨prev, none⟩
  | .ok _ =>
    match env.locationsRes with
    | .error _ => ⟨prev, none⟩
    | .ok locs => ⟨some locs, some locs⟩

/-- `MeasurementUpdateCoordinator._async_update_data` (lines 145-173):
identical structure, fetching measurements for the last 1 hour. -/
def measurementCycle (prev : Option Locations) (env : PollerEnv) : PollerOut :=
  match env.fetchRes with
  | .error _ => ⟨prev, none⟩
  | .ok _ =>
    match env.locationsRes with
    | .error _ => ⟨prev, none⟩
    | .ok locs => ⟨some locs, some locs⟩

/-! ## REST view (`restapi.py`, `DWDGlobalRadRESTApi.get`) -/

/-- Exceptions of the `get_forecast_for_future_hour` call distinguished by
the view's `except` clauses. -/
inductive ApiCallError where
  | keyErr
  | valueErr
  | apiErr
  | typeAttrErr
deriving DecidableEq

/-- A character of the URL's `hours` segment, by its classification under
Python's Unicode semantics — exactly the distinction `restapi.py:22`
depends on.  `decimalDigit v` is a character of Unicode category Nd with
decimal value `v` (ASCII `'1'`, Arabic-Indic U+0662, ...): `str.isdigit`
is true and `int()` consumes it.  `nonDecimalDigit` is a character with
the Unicode digit property but no decimal value (superscript U+00B2, ...):
`str.isdigit` is true but `int()` raises `ValueError` on it.  `other` is
any remaining character: `str.isdigit` is false. -/
inductive PyChar where
  | decimalDigit (v : Fin 10)
  | nonDecimalDigit
  | other
deriving DecidableEq

/-- Whether Python `str.isdigit` counts the character as a digit. -/
def PyChar.isDigitChar : PyChar → Bool
  | .decimalDigit _ => true
  | .nonDecimalDigit => true
  | .other => false

/-- Decimal value of the character under Python `int()`, absent when
`int()` rejects it. -/
def PyChar.decVal? : PyChar → Option Nat
  | .decimalDigit v => some v.val
  | .nonDecimalDigit => none
  | .other => none

/-- Python `str.isdigit` on the segment: true iff non-empty and every
character has the Unicode digit property. -/
def pyIsDigit (s : List PyChar) : Bool :=
  decide (s ≠ []) && s.all PyChar.isDigitChar

/-- One step of `int()`'s digit accumulation: a character without a
decimal value aborts the parse. -/
def intStep (acc : Option Nat) (c : PyChar) : Option Nat :=
  match acc, c.decVal? with
  | some a, some d => some (a * 10 + d)
  | _, _ => none

/-- Python `int()` on the segment: the denoted value when every character
is a decimal digit and the segment is non-empty; `none` models the raised
`ValueError` otherwise. -/
def pyIntParse (s : List PyChar) : Option Nat :=
  if s = [] then none else s.foldl intStep (some 0)

/-- Outcome of one `DWDGlobalRadRESTApi.get` call that produces an HTTP
response: its status, the forecast included on success, and the number of
calls made to the api client. -/
structure RestOut (α : Type) where
  status : Nat
  forecast : Option α
  clientCalls : Nat
deriving DecidableEq

/-- Outcome of one `DWDGlobalRadRESTApi.get` call.  `uncaughtValueError`
is the case where `int(hours)` raises at restapi.py:22, OUTSIDE the
`try`-block: the handler produces no response and the exception propagates
to the web framework. -/
inductive RestOutcome (α : Type) where
  | response (r : RestOut α)
  | uncaughtValueError
deriving DecidableEq

/-- The api-client part of the handler (restapi.py lines 26-51), reached
only after validation: `apiClient` is `none` when `hass.data[DOMAIN]`
holds no `"api_client"`; otherwise it carries the outcome of
`get_forecast_for_future_hour`, dispatched by the `except` clauses. -/
def restDispatch {α : Type} (apiClient : Option (Except ApiCallError α)) :
    RestOut α :=
  match apiClient with
  | none => ⟨500, none, 0⟩
  | some callRes =>
    match callRes with
    | .ok f => ⟨200, some f, 1⟩
    | .error .keyErr => ⟨404, none, 1⟩
    | .error .valueErr => ⟨400, none, 1⟩
    | .error .apiErr => ⟨500, none, 1⟩
    | .error .typeAttrErr => ⟨500, none, 1⟩

/-- `DWDGlobalRadRESTApi.get` (restapi.py lines 19-51).  The validation
line `if not hours.isdigit() or not (1 <= int(hours) <= 99)` short
circuits: a non-isdigit segment is answered 400 before `int()` runs; for
an isdigit segment `int(hours)` is evaluated and may raise an uncaught
`ValueError`; a parsed value outside 1..99 is answered 400; otherwise the
client part runs. -/
def restGet {α : Type} (hours : List PyChar)
    (apiClient : Option (Except ApiCallError α)) : RestOutcome α :=
  if pyIsDigit hours = false then .response ⟨400, none, 0⟩
  else
    match pyIntParse hours with
    | none => .uncaughtValueError
    | some n =>
      if ¬(1 ≤ n ∧ n ≤ 99) then .response ⟨400, none, 0⟩
      else .response (restDispatch apiClient)

/-! ## Single-flight refresh deduplication -/

/-- Modelled from the spec: the shared polling/dedup primitive of §4.1 is
supplied by the host scheduling layer and is not part of this repository's
source; the coordinators delegate `refresh_now()` deduplication to it.
State of one coordinator's refresh machinery: whether a refresh is in
flight, how many callers are attached to it, and how many network fetches
have been started so far. -/
structure SFState where
  inFlight : Bool
  waiters : Nat
  fetchesStarted : Nat
deriving DecidableEq

/-- Modelled from the spec: `refresh_now()` — if a refresh is already in
flight the caller attaches to it (no duplicate fetch is issued); otherwise
a new fetch is started with this caller attached. -/
def requestRefreshSF (s : SFState) : SFState :=
  if s.inFlight then { s with waiters := s.waiters + 1 }
  else { inFlight := true, waiters := 1, fetchesStarted := s.fetchesStarted + 1 }

/-- `n` further `refresh_now()` requests arriving in sequence. -/
def requestNSF (s : SFState) : Nat → SFState
  | 0 => s
  | n + 1 => requestRefreshSF (requestNSF s n)

/-- Modelled from the spec: completion of the in-flight fetch — every
attached caller observes the same resulting state `r`, and the machinery
returns to idle. -/
def completeSF (r : Option Locations) (s : SFState) :
    SFState × List (Option Locations) :=
  (⟨false, 0, s.fetchesStarted⟩, List.replicate s.waiters r)

/-! ## Concrete inputs for witnesses and scenarios -/

/-- Payload of `GET /locations/Berlin`: one measurement dataset whose first
entry has `sis = 120`, one forecast dataset whose first entry has
`sis = 130` (spec scenario, §8). -/
def berlinPayload : LocationPayload :=
  { measurements := some [⟨[⟨120, 1700000000⟩]⟩]
    forecasts := some [⟨[⟨130, 1700003600⟩]⟩]
    otherKeys := 3 }

def berlinEntry : ConfigEntry := ⟨some (105 / 2 : ℚ), some (67 / 5 : ℚ)⟩

/-- Environment of a `get_location_data("Berlin")` call with the location
already registered: both reads return the full payload; the heal branch is
never reached (its outcomes are irrelevant). -/
def berlinEnv : LocationEnv :=
  { entry := some berlinEntry
    measGet1 := .ok (some berlinPayload)
    fcGet1 := .ok (some berlinPayload)
    measAddRes := .ok ()
    measRefreshRes := .ok ()
    measGet2 := .ok none
    fcAddRes := .ok ()
    fcRefreshRes := .ok ()
    fcGet2 := .ok none }

def berlinSnapshot : LocationSnapshot :=
  ⟨⟨[⟨120, 1700000000⟩]⟩, ⟨[⟨130, 1700003600⟩]⟩⟩

/-- Payload of `GET /locations/Hamburg`: the measurement dataset list is
present but empty, the forecast side has data (spec scenario, §8). -/
def hamburgPayload : LocationPayload :=
  { measurements := some []
    forecasts := some [⟨[⟨100, 1700000000⟩]⟩]
    otherKeys := 3 }

def hamburgEnv : LocationEnv :=
  { entry := some ⟨some 53, some 10⟩
    measGet1 := .ok (some hamburgPayload)
    fcGet1 := .ok (some hamburgPayload)
    measAddRes := .ok ()
    measRefreshRes := .ok ()
    measGet2 := .ok none
    fcAddRes := .ok ()
    fcRefreshRes := .ok ()
    fcGet2 := .ok none }

/-- Environment with no config entry registered for the location name. -/
def envNoEntry : LocationEnv :=
  { entry := none
    measGet1 := .ok (some berlinPayload)
    fcGet1 := .ok (some berlinPayload)
    measAddRes := .ok ()
    measRefreshRes := .ok ()
    measGet2 := .ok none
    fcAddRes := .ok ()
    fcRefreshRes := .ok ()
    fcGet2 := .ok none }

/-- A location unknown to the client: both first reads return `None`,
registration and forced refresh succeed, and the re-reads find data. -/
def unknownLocEnv : LocationEnv :=
  { entry := some ⟨some 48, some 11⟩
    measGet1 := .ok none
    fcGet1 := .ok none
    measAddRes := .ok ()
    measRefreshRes := .ok ()
    measGet2 := .ok (some berlinPayload)
    fcAddRes := .ok ()
    fcRefreshRes := .ok ()
    fcGet2 := .ok (some berlinPayload) }

/-- Distinct data for the snapshot-invariant witness. -/
def munichPayload : LocationPayload :=
  { measurements := some [⟨[⟨80, 1700000000⟩]⟩]
    forecasts := some [⟨[⟨90, 1700003600⟩]⟩]
    otherKeys := 3 }

def munichEnv : LocationEnv :=
  { entry := some ⟨some 48, some 12⟩
    measGet1 := .ok (some munichPayload)
    fcGet1 := .ok (some munichPayload)
    measAddRes := .ok ()
    measRefreshRes := .ok ()
    measGet2 := .ok none
    fcAddRes := .ok ()
    fcRefreshRes := .ok ()
    fcGet2 := .ok none }

def munichSnapshot : LocationSnapshot :=
  ⟨⟨[⟨80, 1700000000⟩]⟩, ⟨[⟨90, 1700003600⟩]⟩⟩

/-- A poller cycle that times out. -/
def timeoutPollerEnv : PollerEnv := ⟨.error .timeoutErr, .ok []⟩

/-- The `hours` path segment `"150"`: three ASCII decimal digits. -/
def seg150 : List PyChar := [.decimalDigit 1, .decimalDigit 5, .decimalDigit 0]

/-- The `hours` path segment consisting of the single character U+00B2
(superscript two): `str.isdigit` is true for it, `int()` raises. -/
def segSuperscriptTwo : List PyChar := [.nonDecimalDigit]

/-- The `hours` path segment consisting of the single character U+0662
(Arabic-Indic digit two): a decimal digit of value 2 under `int()`. -/
def segArabicIndicTwo : List PyChar := [.decimalDigit 2]

-- Evaluation of the embedding on the concrete scenario inputs.
example : getLocationData berlinEnv = some berlinSnapshot := rfl
example : getLocationData hamburgEnv = none := rfl
example : getLocationData envNoEntry = none := rfl
example : getLocationData unknownLocEnv = some berlinSnapshot := rfl
example :
    (runGLD unknownLocEnv).trace =
      [.measGet, .fcGet, .measAdd, .measRefresh, .measGet, .fcAdd, .fcRefresh, .fcGet] := rfl

/-! ## Helper lemmas -/

/-- Whenever the `try`-block of `get_location_data` completes, its returned
value is the check-and-assemble step applied to the final payloads. -/
lemma runGLD_ok_result (env : LocationEnv) (o : GLDOut)
    (h : (runGLD env).body = .ok o) : o.result = finalize o.finalMeas o.finalFc := by
  unfold runGLD at h
  repeat' split at h
  all_goals simp_all
  all_goals (subst h; rfl)

/-- A non-`none` result of the check-and-assemble step comes from two
present payloads with non-empty dataset lists, and is the pair of their
first elements. -/
lemma finalize_some (md fd : Option LocationPayload) (s : LocationSnapshot)
    (h : finalize md fd = some s) :
    ∃ mp fp m ms f fs, md = some mp ∧ fd = some fp ∧
      mp.measurements = some (m :: ms) ∧ fp.forecasts = some (f :: fs) ∧
      s = ⟨m, f⟩ := by
  rcases md with _ | mp
  · simp [finalize] at h
  · rcases fd with _ | fp
    · simp [finalize] at h
    · simp only [finalize] at h
      by_cases ht : (mp.isTruthy && fp.isTruthy) = true
      · rw [if_pos ht] at h
        cases hm : mp.measurements with
        | none => rw [hm] at h; simp at h
        | some ml =>
          cases ml with
          | nil => rw [hm] at h; simp at h
          | cons m ms =>
            rw [hm] at h
            cases hf : fp.forecasts with
            | none => rw [hf] at h; simp at h
            | some fl =>
              cases fl with
              | nil => rw [hf] at h; simp at h
              | cons f fs =>
                rw [hf] at h
                simp only [Option.some.injEq] at h
                exact ⟨mp, fp, m, ms, f, fs, rfl, rfl, hm, hf, h.symm⟩
      · rw [if_neg ht] at h
        exact absurd h (by simp)

/-- The self-healing block never replaces a payload that was already
present: if the first measurement read returned a payload, the final
`measurement_data` local is that payload. -/
lemma runGLD_finalMeas_of_present (env : LocationEnv) (p : LocationPayload)
    (h1 : env.measGet1 = .ok (some p)) (o : GLDOut)
    (h : (runGLD env).body = .ok o) : o.finalMeas = some p := by
  unfold runGLD at h
  rw [h1] at h
  simp only [healStep] at h
  repeat' split at h
  all_goals simp_all
  all_goals (subst h; rfl)

/-- Symmetric statement for the forecast side. -/
lemma runGLD_finalFc_of_present (env : LocationEnv) (q : LocationPayload)
    (h1 : env.fcGet1 = .ok (some q)) (o : GLDOut)
    (h : (runGLD env).body = .ok o) : o.finalFc = some q := by
  unfold runGLD at h
  rw [h1] at h
  simp only [healStep] at h
  repeat' split at h
  all_goals simp_all
  all_goals (subst h; rfl)

/-- Characterisation of a non-`none` `get_location_data` result: the
`try`-block completed, both final payloads were present with non-empty
dataset lists, and the snapshot is the pair of first elements of those
lists from that one pass. -/
lemma gld_some_char (env : LocationEnv) (s : LocationSnapshot)
    (h : getLocationData env = some s) :
    ∃ o mp fp m ms f fs, (runGLD env).body = .ok o ∧
      o.finalMeas = some mp ∧ o.finalFc = some fp ∧
      mp.measurements = some (m :: ms) ∧ fp.forecasts = some (f :: fs) ∧
      s = ⟨m, f⟩ := by
  unfold getLocationData at h
  cases hb : (runGLD env).body with
  | error c => simp [hb] at h
  | ok o =>
    simp only [hb] at h
    have hr := runGLD_ok_result env o hb
    rw [h] at hr
    obtain ⟨mp, fp, m, ms, f, fs, hmd, hfd, hm, hf, hs⟩ :=
      finalize_some o.finalMeas o.finalFc s hr.symm
    exact ⟨o, mp, fp, m, ms, f, fs, rfl, hmd, hfd, hm, hf, hs⟩

/-- `n` refresh requests arriving while a refresh is in flight leave it in
flight, attach `n` more waiters, and start no fetch. -/
lemma requestNSF_inflight (s : SFState) (hs : s.inFlight = true) :
    ∀ n, requestNSF s n = ⟨true, s.waiters + n, s.fetchesStarted⟩ := by
  intro n
  induction n with
  | zero => simp [requestNSF, ← hs]
  | succ k ih => simp [requestNSF, ih, requestRefreshSF, Nat.add_assoc]

/-- A character without a decimal value aborts the accumulation. -/
lemma intStep_none (c : PyChar) : intStep none c = none := by
  cases c <;> rfl

/-- An aborted parse stays aborted. -/
lemma foldl_intStep_none (s : List PyChar) : s.foldl intStep none = none := by
  induction s with
  | nil => rfl
  | cons c t ih => rw [List.foldl_cons, intStep_none]; exact ih

/-- A successful accumulation certifies that every character has the
Unicode digit property. -/
lemma foldl_intStep_all_digit (s : List PyChar) :
    ∀ (a n : Nat), s.foldl intStep (some a) = some n →
      s.all PyChar.isDigitChar = true := by
  induction s with
  | nil => intro a n _; rfl
  | cons c t ih =>
    intro a n h
    rw [List.foldl_cons] at h
    cases hc : c.decVal? with
    | none =>
      rw [show intStep (some a) c = none from by simp [intStep, hc]] at h
      rw [foldl_intStep_none] at h
      exact absurd h (by simp)
    | some d =>
      rw [show intStep (some a) c = some (a * 10 + d) from by simp [intStep, hc]] at h
      have hcd : c.isDigitChar = true := by
        cases c with
        | decimalDigit v => rfl
        | nonDecimalDigit => simp [PyChar.decVal?] at hc
        | other => simp [PyChar.decVal?] at hc
      simp [List.all_cons, hcd, ih (a * 10 + d) n h]

/-- A segment `int()` accepts also passes `str.isdigit`. -/
lemma pyIntParse_isDigit (s : List PyChar) (n : Nat)
    (h : pyIntParse s = some n) : pyIsDigit s = true := by
  unfold pyIntParse at h
  by_cases hs : s = []
  · rw [if_pos hs] at h
    exact absurd h (by simp)
  · rw [if_neg hs] at h
    simp [pyIsDigit, hs, foldl_intStep_all_digit s 0 n h]

/-! ## Additional concrete inputs -/

/-- A second no-config-entry environment. -/
def envNoEntryB : LocationEnv :=
  { entry := none
    measGet1 := .ok (some munichPayload)
    fcGet1 := .ok (some munichPayload)
    measAddRes := .ok ()
    measRefreshRes := .ok ()
    measGet2 := .ok none
    fcAddRes := .ok ()
    fcRefreshRes := .ok ()
    fcGet2 := .ok none }

/-- An environment whose first measurement read raises a network error. -/
def envNetworkFail : LocationEnv :=
  { entry := some ⟨some 50, some 8⟩
    measGet1 := .error .networkErr
    fcGet1 := .ok (some munichPayload)
    measAddRes := .ok ()
    measRefreshRes := .ok ()
    measGet2 := .ok none
    fcAddRes := .ok ()
    fcRefreshRes := .ok ()
    fcGet2 := .ok none }

/-! ## Claims -/

/-- C1: every fetch cycle of the Forecast Poller or Measurement Poller that
fails with a timeout, a network error, or any other exception is caught at
the poller boundary — the cycle returns normally instead of propagating the
exception — and the previously published `last_data` is left unchanged, so
subscribers continue to see the prior data. -/
theorem poller_failure_isolated (prev : Option Locations) (env : PollerEnv)
    (h : (∃ e, env.fetchRes = .error e) ∨ (∃ e, env.locationsRes = .error e)) :
    forecastCycle prev env = ⟨prev, none⟩ ∧
    measurementCycle prev env = ⟨prev, none⟩ := by
  rcases env with ⟨f, l⟩
  rcases h with ⟨e, he⟩ | ⟨e, he⟩ <;> dsimp only at he <;> subst he
  · exact ⟨rfl, rfl⟩
  · rcases f with e2 | u
    · exact ⟨rfl, rfl⟩
    · exact ⟨rfl, rfl⟩

/-- C1 witness: a timed-out cycle over a previously published collection. -/
theorem poller_failure_isolated_witness :
    (∃ e, timeoutPollerEnv.fetchRes = .error e) ∧
    forecastCycle (some [berlinPayload]) timeoutPollerEnv =
      ⟨some [berlinPayload], none⟩ ∧
    measurementCycle (some [berlinPayload]) timeoutPollerEnv =
      ⟨some [berlinPayload], none⟩ :=
  ⟨⟨.timeoutErr, rfl⟩,
    (poller_failure_isolated (some [berlinPayload]) timeoutPollerEnv
      (Or.inl ⟨.timeoutErr, rfl⟩)).1,
    (poller_failure_isolated (some [berlinPayload]) timeoutPollerEnv
      (Or.inl ⟨.timeoutErr, rfl⟩)).2⟩

/-- C2: if `get_location_data` obtains a measurement dataset that is
present but whose dataset list is empty — or a forecast dataset that is
present but empty — it returns absent (`none`), never a snapshot built from
an empty list; in particular, the Hamburg scenario yields an absent
result. -/
theorem empty_dataset_gives_absent :
    (∀ (env : LocationEnv) (p : LocationPayload),
        env.measGet1 = .ok (some p) → p.measurements = some [] →
        getLocationData env = none) ∧
    (∀ (env : LocationEnv) (q : LocationPayload),
        env.fcGet1 = .ok (some q) → q.forecasts = some [] →
        getLocationData env = none) := by
  constructor
  · intro env p h1 hm
    cases hg : getLocationData env with
    | none => rfl
    | some s =>
      obtain ⟨o, mp, fp, m, ms, f, fs, hb, hmd, _, hmm, _, _⟩ := gld_some_char env s hg
      have hp : p = mp :=
        Option.some.inj ((runGLD_finalMeas_of_present env p h1 o hb).symm.trans hmd)
      rw [← hp] at hmm
      exact absurd (hm.symm.trans hmm) (by simp)
  · intro env q h1 hf
    cases hg : getLocationData env with
    | none => rfl
    | some s =>
      obtain ⟨o, mp, fp, m, ms, f, fs, hb, _, hfd, _, hff, _⟩ := gld_some_char env s hg
      have hq : q = fp :=
        Option.some.inj ((runGLD_finalFc_of_present env q h1 o hb).symm.trans hfd)
      rw [← hq] at hff
      exact absurd (hf.symm.trans hff) (by simp)

/-- C2 witness: the Hamburg scenario — measurement dataset list present but
empty. -/
theorem empty_dataset_gives_absent_witness :
    hamburgEnv.measGet1 = Except.ok (some hamburgPayload) ∧
    hamburgPayload.measurements = some [] ∧
    getLocationData hamburgEnv = none :=
  ⟨rfl, rfl, empty_dataset_gives_absent.1 hamburgEnv hamburgPayload rfl rfl⟩

/-- C3: invariant kept by every operation touching `_location_data`:
whenever it is non-absent, it was assembled in a single pass of
`get_location_data` in which both final payloads were present with
non-empty dataset lists, and it holds the first element of each list from
that same pass; it is replaced as a whole (the snapshot value carries both
sides by construction). -/
theorem snapshot_invariant (ld : Option LocationSnapshot) (h : LDReach ld) :
    ld = none ∨
      ∃ env o mp fp m ms f fs, (runGLD env).body = .ok o ∧
        o.finalMeas = some mp ∧ o.finalFc = some fp ∧
        mp.measurements = some (m :: ms) ∧ fp.forecasts = some (f :: fs) ∧
        ld = some ⟨m, f⟩ := by
  induction h with
  | start => exact Or.inl rfl
  | getData old env hold ih =>
    unfold locDataAfterGet
    cases hg : getLocationData env with
    | none => exact ih
    | some s =>
      obtain ⟨o, mp, fp, m, ms, f, fs, hb, h1, h2, h3, h4, h5⟩ := gld_some_char env s hg
      exact Or.inr ⟨env, o, mp, fp, m, ms, f, fs, hb, h1, h2, h3, h4, by rw [h5]⟩
  | handler flags env old hold ih =>
    by_cases hm : flags.measurementOk
    · cases hg : getLocationData env with
      | none => simp [handleUpdate, hm, hg]
      | some s =>
        obtain ⟨o, mp, fp, m, ms, f, fs, hb, h1, h2, h3, h4, h5⟩ := gld_some_char env s hg
        refine Or.inr ⟨env, o, mp, fp, m, ms, f, fs, hb, h1, h2, h3, h4, ?_⟩
        simp [handleUpdate, hm, hg, h5]
    · simp [handleUpdate, hm]

/-- C3 witness: a reachable non-absent snapshot, with its assembly
pedigree. -/
theorem snapshot_invariant_witness :
    LDReach (some munichSnapshot) ∧
    (some munichSnapshot = none ∨
      ∃ env o mp fp m ms f fs, (runGLD env).body = .ok o ∧
        o.finalMeas = some mp ∧ o.finalFc = some fp ∧
        mp.measurements = some (m :: ms) ∧ fp.forecasts = some (f :: fs) ∧
        some munichSnapshot = some ⟨m, f⟩) := by
  have h0 := LDReach.getData none munichEnv LDReach.start
  have he : locDataAfterGet none munichEnv = some munichSnapshot := rfl
  rw [he] at h0
  exact ⟨h0, snapshot_invariant (some munichSnapshot) h0⟩

/-- C4: for a location unknown to the client (both first reads return
`None`), one `get_location_data` call performs exactly one registration,
one forced refresh and one re-read per missing side — and nothing more, as
the full operation trace shows; if the re-reads then find data the call
succeeds with the assembled snapshot, and if a dataset is still absent the
call returns absent rather than retrying further. -/
theorem self_heal_once (env : LocationEnv) (e : ConfigEntry)
    (m2 f2 : Option LocationPayload)
    (hentry : env.entry = some e)
    (hm1 : env.measGet1 = .ok none) (hf1 : env.fcGet1 = .ok none)
    (hma : env.measAddRes = .ok ()) (hmr : env.measRefreshRes = .ok ())
    (hfa : env.fcAddRes = .ok ()) (hfr : env.fcRefreshRes = .ok ())
    (hm2 : env.measGet2 = .ok m2) (hf2 : env.fcGet2 = .ok f2) :
    (runGLD env).trace =
      [.measGet, .fcGet, .measAdd, .measRefresh, .measGet,
        .fcAdd, .fcRefresh, .fcGet] ∧
    (∀ mp m ms fp f fs, m2 = some mp → mp.measurements = some (m :: ms) →
        f2 = some fp → fp.forecasts = some (f :: fs) →
        getLocationData env = some ⟨m, f⟩) ∧
    ((m2 = none ∨ f2 = none) → getLocationData env = none) := by
  rcases env with ⟨entry, mg1, fg1, ma, mr, g2m, fa, fr, g2f⟩
  dsimp only at hentry hm1 hf1 hma hmr hfa hfr hm2 hf2
  subst hentry hm1 hf1 hma hmr hfa hfr hm2 hf2
  refine ⟨rfl, ?_, ?_⟩
  · intro mp m ms fp f fs h1 h2 h3 h4
    subst h1 h3
    simp [getLocationData, runGLD, healStep, truthyOpt, finalize,
      LocationPayload.isTruthy, h2, h4]
  · intro h
    rcases h with h | h
    · subst h
      simp [getLocationData, runGLD, healStep, truthyOpt, finalize]
    · subst h
      rcases m2 with _ | mp <;>
        simp [getLocationData, runGLD, healStep, truthyOpt, finalize]

/-- C4 witness: an unknown location whose re-reads find full data. -/
theorem self_heal_once_witness :
    unknownLocEnv.measGet1 = Except.ok none ∧
    unknownLocEnv.fcGet1 = Except.ok none ∧
    (runGLD unknownLocEnv).trace =
      [.measGet, .fcGet, .measAdd, .measRefresh, .measGet,
        .fcAdd, .fcRefresh, .fcGet] ∧
    getLocationData unknownLocEnv = some berlinSnapshot :=
  ⟨rfl, rfl,
    (self_heal_once unknownLocEnv ⟨some 48, some 11⟩
      (some berlinPayload) (some berlinPayload)
      rfl rfl rfl rfl rfl rfl rfl rfl rfl).1,
    (self_heal_once unknownLocEnv ⟨some 48, some 11⟩
      (some berlinPayload) (some berlinPayload)
      rfl rfl rfl rfl rfl rfl rfl rfl rfl).2.1
      berlinPayload ⟨[⟨120, 1700000000⟩]⟩ [] berlinPayload ⟨[⟨130, 1700003600⟩]⟩ []
      rfl rfl rfl rfl⟩

/-- C5 counterexample: with the forecast parent reporting failure
(`forecastOk = false`) and the measurement parent healthy, the handler does
NOT clear the published data to absent — it publishes the recomputed
snapshot, because the code only consults the measurement parent's
`last_update_success`. -/
theorem forecast_failure_not_cleared :
    (⟨true, false⟩ : ParentFlags).forecastOk = false ∧
    (handleUpdate ⟨true, false⟩ berlinEnv).published = some berlinSnapshot ∧
    (handleUpdate ⟨true, false⟩ berlinEnv).published ≠ none :=
  ⟨rfl, rfl, by decide⟩

/-- C5 (amended): on a notification from either parent the same handler
runs; it clears the published data and `_location_data` to absent exactly
when the MEASUREMENT parent reports failure, and otherwise re-runs
`get_location_data` and publishes whatever it returns — the forecast
parent's success flag is never consulted. -/
theorem handler_clears_only_on_measurement_failure :
    subscribedParents = [Parent.forecast, Parent.measurement] ∧
    ∀ (flags : ParentFlags) (env : LocationEnv),
      (flags.measurementOk = false → handleUpdate flags env = ⟨none, none⟩) ∧
      (flags.measurementOk = true →
        (handleUpdate flags env).published = getLocationData env ∧
        (handleUpdate flags env).locationData = getLocationData env) := by
  refine ⟨rfl, fun flags env => ⟨?_, ?_⟩⟩
  · intro hm
    simp [handleUpdate, hm]
  · intro hm
    cases hg : getLocationData env <;> simp [handleUpdate, hm, hg]

/-- C5 witness: measurement-parent failure clears; with both parents
healthy the handler republishes the recomputed result. -/
theorem handler_clears_only_on_measurement_failure_witness :
    handleUpdate ⟨false, true⟩ munichEnv = ⟨none, none⟩ ∧
    (handleUpdate ⟨true, true⟩ munichEnv).published = getLocationData munichEnv :=
  ⟨(handler_clears_only_on_measurement_failure.2 ⟨false, true⟩ munichEnv).1 rfl,
    ((handler_clears_only_on_measurement_failure.2 ⟨true, true⟩ munichEnv).2 rfl).1⟩

/-- C6: Berlin scenario — with the location registered and the client
returning a measurement dataset whose first entry has `sis = 120` and a
forecast dataset whose first entry has `sis = 130`,
`get_location_data("Berlin")` returns a snapshot whose measurements part is
the first element of the measurement dataset list and whose forecasts part
is the first element of the forecast dataset list. -/
theorem berlin_scenario :
    getLocationData berlinEnv = some berlinSnapshot ∧
    berlinPayload.measurements = some [berlinSnapshot.measurements] ∧
    berlinPayload.forecasts = some [berlinSnapshot.forecasts] ∧
    berlinSnapshot.measurements.measurement_values.head?.map
      MeasurementEntry.sis = some 120 ∧
    berlinSnapshot.forecasts.entries.head?.map ForecastEntry.sis = some 130 :=
  ⟨rfl, rfl, rfl, rfl, rfl⟩

/-- C7: issuing `n` concurrent `refresh_now()` requests while a refresh is
already in flight starts no further network fetch (the single in-flight
fetch serves them all), and on completion every attached caller observes
the same resulting state. -/
theorem single_flight (s : SFState) (n : Nat) (r : Option Locations)
    (hs : s.inFlight = true) :
    (requestNSF s n).fetchesStarted = s.fetchesStarted ∧
    (completeSF r (requestNSF s n)).2.length = s.waiters + n ∧
    ∀ x ∈ (completeSF r (requestNSF s n)).2, x = r := by
  rw [requestNSF_inflight s hs n]
  exact ⟨rfl, by simp [completeSF], fun x hx => List.eq_of_mem_replicate hx⟩

/-- C7 witness: three requests join an in-flight refresh with two waiters. -/
theorem single_flight_witness :
    (requestNSF ⟨true, 2, 5⟩ 3).fetchesStarted = 5 ∧
    (completeSF (some []) (requestNSF ⟨true, 2, 5⟩ 3)).2.length = 5 ∧
    ∀ x ∈ (completeSF (some []) (requestNSF ⟨true, 2, 5⟩ 3)).2, x = some [] :=
  ⟨(single_flight ⟨true, 2, 5⟩ 3 (some []) rfl).1,
    (single_flight ⟨true, 2, 5⟩ 3 (some []) rfl).2.1,
    (single_flight ⟨true, 2, 5⟩ 3 (some []) rfl).2.2⟩

/-- C8 counterexample: the segment consisting of the single character
U+00B2 (superscript two).  Python `str.isdigit` is true for it, so the
validation's first disjunct does not fire, and `int()` then raises
`ValueError` at restapi.py:22, OUTSIDE the `try`-block: the view produces
no response at all and makes no client call — in particular it does not
respond with status 400, although this segment is not a digit string
denoting an integer in 1..99. -/
theorem superscript_hours_not_rejected :
    pyIsDigit segSuperscriptTwo = true ∧
    pyIntParse segSuperscriptTwo = none ∧
    restGet segSuperscriptTwo (some (Except.ok ())) =
      RestOutcome.uncaughtValueError ∧
    restGet segSuperscriptTwo (some (Except.ok ())) ≠
      .response ⟨400, none, 0⟩ :=
  ⟨rfl, rfl, rfl, by decide⟩

/-- C8 (amended): a segment failing Python `str.isdigit`, or one `int()`
parses to a value outside 1..99, is answered 400 with no client call; an
isdigit-true segment `int()` cannot parse raises an uncaught `ValueError`
at the validation line (no 400, no client call); and a segment parsing
into 1..99 — including non-ASCII decimal digits — passes validation and
reaches the client part. -/
theorem invalid_hours_rejected {α : Type} (hours : List PyChar)
    (client : Option (Except ApiCallError α)) :
    (pyIsDigit hours = false →
      restGet hours client = .response ⟨400, none, 0⟩) ∧
    (∀ n, pyIntParse hours = some n → ¬(1 ≤ n ∧ n ≤ 99) →
      restGet hours client = .response ⟨400, none, 0⟩) ∧
    (pyIsDigit hours = true → pyIntParse hours = none →
      restGet hours client = RestOutcome.uncaughtValueError) ∧
    (∀ n, pyIntParse hours = some n → 1 ≤ n ∧ n ≤ 99 →
      restGet hours client = .response (restDispatch client)) := by
  refine ⟨?_, ?_, ?_, ?_⟩
  · intro h
    simp [restGet, h]
  · intro n hp hr
    simp [restGet, pyIntParse_isDigit hours n hp, hp, hr]
  · intro hd hp
    simp [restGet, hd, hp]
  · intro n hp hr
    simp [restGet, pyIntParse_isDigit hours n hp, hp, hr]

/-- C8 witness: `GET .../forecasts/Berlin/150h` parses to 150, is out of
1..99, and is rejected with 400 and no client call, even with a healthy
client. -/
theorem invalid_hours_rejected_witness :
    pyIntParse seg150 = some 150 ∧
    ¬(1 ≤ 150 ∧ 150 ≤ 99) ∧
    restGet seg150 (some (Except.ok ())) = .response ⟨400, none, 0⟩ :=
  ⟨rfl, by decide,
    (invalid_hours_rejected seg150 (some (Except.ok ()))).2.1 150 rfl (by decide)⟩

-- Evaluation on the Arabic-Indic digit-two segment: validation passes and
-- the client is contacted.
example :
    restGet segArabicIndicTwo (some (Except.ok ())) =
      .response ⟨200, some (), 1⟩ := rfl

/-- C9 counterexample: for a name with no registered config entry,
`get_location_data` raises `ValueError` internally, but its own
`except Exception` handler swallows it and the caller receives the plain
absent result `none` — the location-not-found condition is NOT surfaced to
the immediate caller as a structured error. -/
theorem location_not_found_counterexample :
    envNoEntry.entry = none ∧
    (runGLD envNoEntry).body = Except.error ClientError.locationNotFound ∧
    getLocationData envNoEntry = none :=
  ⟨rfl, rfl, rfl⟩

/-- C9 (amended): when no config entry is registered for the name,
`get_location_data` raises a location-not-found `ValueError` inside its
`try`-block, which its own catch-all handler converts into a logged
`return None`; the immediate caller observes absent, not a structured
error. -/
theorem location_not_found_swallowed (env : LocationEnv)
    (h : env.entry = none) :
    (runGLD env).body = Except.error ClientError.locationNotFound ∧
    getLocationData env = none := by
  have hb : (runGLD env).body = .error .locationNotFound := by
    unfold runGLD
    rw [h]
  exact ⟨hb, by simp [getLocationData, hb]⟩

/-- C9 witness: a concrete no-entry environment. -/
theorem location_not_found_swallowed_witness :
    envNoEntryB.entry = none ∧
    (runGLD envNoEntryB).body = Except.error ClientError.locationNotFound ∧
    getLocationData envNoEntryB = none :=
  ⟨rfl, (location_not_found_swallowed envNoEntryB rfl).1,
    (location_not_found_swallowed envNoEntryB rfl).2⟩

/-- C10: `get_location_data` never propagates an exception to its caller —
whenever any collaborator call (or the internal `ValueError`) aborts the
`try`-block with an error, the catch-all handler returns `none`. -/
theorem internal_errors_return_none (env : LocationEnv) (c : ClientError)
    (h : (runGLD env).body = .error c) : getLocationData env = none := by
  simp [getLocationData, h]

/-- C10 witness: a network error on the first measurement read yields the
plain absent result. -/
theorem internal_errors_return_none_witness :
    (runGLD envNetworkFail).body = Except.error ClientError.networkErr ∧
    getLocationData envNetworkFail = none :=
  ⟨rfl, internal_errors_return_none envNetworkFail ClientError.networkErr rfl⟩

end DWDGlobalRad
